import Mathlib

/-!
Shallow embedding of the Keba charger driver (package `charger`, file with
`(*Keba).client`) from the evcc repository.

The Go function `(*Keba).client(ctx, address, reader)` performs a single
UDP request/response exchange:

* `net.ResolveUDPAddr` — on failure the error is returned at once;
* `net.DialUDP` — on failure the error is returned at once;
* `defer conn.Close()` — the socket is closed when `client` returns;
* a goroutine that: `io.Copy`s the payload to the socket (on failure it
  sends the error on `doneChan` and stops), arms a read deadline of
  `time.Now().Add(updTimeout)`, performs one `ReadFrom` into a buffer of
  `udpBufferSize` bytes, and sends the final outcome (an error or `nil`)
  on the 1-buffered channel `doneChan`;
* a `select` over `ctx.Done()` and `doneChan`; whichever is ready first
  determines the returned error.

Nondeterminism of the network and the scheduler is captured by an
environment record `ClientEnv`: the outcome of each system call, the
current time at the deadline-arming point, whether the cancellation
signal is ready before a value is received from `doneChan`, and how many
steps of the goroutine have executed by the time a cancelled call
returns.  Executions are modelled as traces of events; logging
(`m.log.TRACE.Printf`) is visible in the trace as the data carried by
the events.
-/

namespace Evcc

/-- Source constant `udpBufferSize = 1024`: capacity of the reply buffer. -/
def udpBufferSize : Nat := 1024

/-- Source constant `updTimeout = time.Second`, in nanoseconds (Go's
`time.Duration` unit). -/
def updTimeout : Nat := 1000000000

/-- Go `error` values that arise in this driver, tagged by provenance:
`addrError` from `net.ResolveUDPAddr`, `opError op msg` for the
`*net.OpError`-style failures of `DialUDP` / `io.Copy` / `SetReadDeadline`
/ `ReadFrom`, the two sentinel errors `context.Canceled` and
`context.DeadlineExceeded` returned by `ctx.Err()`, and `errorString msg`
for a value built with `errors.New(msg)`. -/
inductive GoError where
  | addrError (msg : String)
  | opError (op : String) (msg : String)
  | ctxCanceled
  | ctxDeadlineExceeded
  | errorString (msg : String)
  deriving DecidableEq, Repr

/-- The `errors.New("not implemented")` value returned by the
unimplemented charger operations. -/
def notImplemented : GoError := .errorString "not implemented"

/-- The `Keba` struct.  The `log` field only feeds TRACE output, which the
embedding exposes through the event trace, so only `conn` is kept. -/
structure Keba where
  conn : String
  deriving DecidableEq, Repr

/-- `NewKeba` constructor. -/
def NewKeba (conn : String) : Keba := { conn := conn }

/-- Events of the background goroutine (lines 71–105 of the source), in
its program order: the `io.Copy` call and its byte count on success, the
`SetReadDeadline` call with the computed absolute deadline, the
`ReadFrom` call and its result, and the single send on `doneChan`. -/
inductive GoEvent where
  | copyAttempt
  | copyDone (n : Nat)
  | deadlineSet (d : Nat)
  | readAttempt
  | readDone (n : Nat) (addr : String)
  | chanSend (v : Option GoError)
  deriving DecidableEq, Repr

/-- Events of one `client` call: the supervising context's own actions
plus the goroutine's events (wrapped in `goEv`) interleaved at the
positions where the scheduler ran them. -/
inductive ClientEvent where
  | resolveAttempt (address : String)
  | resolved (raddr : String)
  | dialAttempt (raddr : String)
  | dialed
  | goSpawned
  | goEv (e : GoEvent)
  | ctxDoneObserved
  | chanRecv (v : Option GoError)
  | connClosed
  | returned (v : Option GoError)
  deriving DecidableEq, Repr

/-- Environment (network + scheduler oracle) for one `client` call.
`resolveRes`, `dialRes`, `writeRes`, `setDeadlineRes`, `readRes` are the
outcomes the OS gives to the corresponding system calls (`readRes`
carries the reply datagram's bytes and sender address); `now` is
`time.Now()` at the deadline-arming point; `ctxDoneFirst` says whether
the `select` takes the `ctx.Done()` branch (cancellation ready before a
value was received from `doneChan`); `goProgress` says how many goroutine
events had happened when a cancelled call returned; `ctxCanceledKind`
picks which sentinel `ctx.Err()` returns. -/
structure ClientEnv where
  resolveRes : Except String String
  dialRes : Except String Unit
  payload : List Nat
  writeRes : Except String Unit
  setDeadlineRes : Except String Unit
  readRes : Except String (List Nat × String)
  now : Nat
  ctxDoneFirst : Bool
  ctxCanceledKind : Bool
  goProgress : Nat

/-- The value `ctx.Err()` returns once the context is done. -/
def ctxError (env : ClientEnv) : GoError :=
  if env.ctxCanceledKind then .ctxCanceled else .ctxDeadlineExceeded

/-- `io.Copy(conn, reader)` for a finite byte source: an empty source
issues no write at all and returns `(0, nil)`; a non-empty source
returns the payload length on a successful write, or the write error. -/
def ioCopy (payload : List Nat) (writeRes : Except String Unit) :
    Except String Nat :=
  if payload.isEmpty then .ok 0
  else
    match writeRes with
    | .ok _ => .ok payload.length
    | .error msg => .error msg

/-- `conn.ReadFrom(buffer)` with a buffer of capacity `cap`: at most one
datagram is received; an oversized datagram is truncated to `cap` bytes
and no error is reported for the truncation. -/
def readFrom (cap : Nat) (data : List Nat) (addr : String) : Nat × String :=
  (min data.length cap, addr)

/-- The background goroutine of `client` (source lines 71–105): copy the
payload; on failure send the error and stop; otherwise arm the read
deadline `time.Now().Add(updTimeout)`; on failure send the error and
stop; otherwise `ReadFrom` into the `udpBufferSize` buffer; send the read
error or `nil`.  Returns the goroutine's event trace (its program order)
and the single value it sends on `doneChan`. -/
def goroutine (env : ClientEnv) : List GoEvent × Option GoError :=
  match ioCopy env.payload env.writeRes with
  | .error msg =>
      ([.copyAttempt, .chanSend (some (.opError "write" msg))],
       some (.opError "write" msg))
  | .ok n =>
      match env.setDeadlineRes with
      | .error msg =>
          ([.copyAttempt, .copyDone n, .deadlineSet (env.now + updTimeout),
            .chanSend (some (.opError "setReadDeadline" msg))],
           some (.opError "setReadDeadline" msg))
      | .ok _ =>
          match env.readRes with
          | .error msg =>
              ([.copyAttempt, .copyDone n,
                .deadlineSet (env.now + updTimeout), .readAttempt,
                .chanSend (some (.opError "read" msg))],
               some (.opError "read" msg))
          | .ok (data, addr) =>
              ([.copyAttempt, .copyDone n,
                .deadlineSet (env.now + updTimeout), .readAttempt,
                .readDone (readFrom udpBufferSize data addr).1
                  (readFrom udpBufferSize data addr).2,
                .chanSend none],
               none)

/-- `(*Keba).client` (source lines 46–115): resolve, dial, spawn the
goroutine, `select` over `ctx.Done()` and `doneChan`, run the deferred
`conn.Close()`, return the error.  Result: the observable event trace of
the call (goroutine events interleaved where the scheduler ran them) and
the returned Go error (`none` = `nil`).  When the `ctx.Done()` branch
wins, the goroutine events past `env.goProgress` happen after the call
has already closed the socket and returned, and the value the goroutine
sends stays in the 1-buffered channel, never received. -/
def Keba.client (m : Keba) (env : ClientEnv) (address : String) :
    List ClientEvent × Option GoError :=
  match env.resolveRes with
  | .error msg =>
      ([.resolveAttempt address, .returned (some (.addrError msg))],
       some (.addrError msg))
  | .ok raddr =>
      match env.dialRes with
      | .error msg =>
          ([.resolveAttempt address, .resolved raddr, .dialAttempt raddr,
            .returned (some (.opError "dial" msg))],
           some (.opError "dial" msg))
      | .ok _ =>
          let g := goroutine env
          let pre : List ClientEvent :=
            [.resolveAttempt address, .resolved raddr, .dialAttempt raddr,
             .dialed, .goSpawned]
          if env.ctxDoneFirst then
            let kk := min env.goProgress g.1.length
            (pre ++ (g.1.take kk).map .goEv ++
               [.ctxDoneObserved, .connClosed,
                .returned (some (ctxError env))] ++
               (g.1.drop kk).map .goEv,
             some (ctxError env))
          else
            (pre ++ g.1.map .goEv ++
               [.chanRecv g.2, .connClosed, .returned g.2],
             g.2)

/-- `Status` (source line 118). -/
def Keba.Status (m : Keba) : String × Option GoError :=
  ("A", some notImplemented)

/-- `Enabled` (source line 123). -/
def Keba.Enabled (m : Keba) : Bool × Option GoError :=
  (false, some notImplemented)

/-- `Enable` (source line 128). -/
def Keba.Enable (m : Keba) (enable : Bool) : Option GoError :=
  some notImplemented

/-- `MaxCurrent` (source line 133). -/
def Keba.MaxCurrent (m : Keba) (current : Int) : Option GoError :=
  some notImplemented

/-! Observation helpers on traces. -/

/-- Is this event a goroutine event? -/
def isGoEv : ClientEvent → Bool
  | .goEv _ => true
  | _ => false

/-- Is this event a receive from `doneChan`? -/
def isRecv : ClientEvent → Bool
  | .chanRecv _ => true
  | _ => false

/-- Is this event the goroutine's send on `doneChan`? -/
def isSend : ClientEvent → Bool
  | .goEv (.chanSend _) => true
  | _ => false

/-- Is this event the send on `doneChan`, seen from the goroutine side? -/
def isGoSend : GoEvent → Bool
  | .chanSend _ => true
  | _ => false

/-- Is this event the deferred `conn.Close()`? -/
def isClosed : ClientEvent → Bool
  | .connClosed => true
  | _ => false

/-- Is this event the return of the call? -/
def isReturned : ClientEvent → Bool
  | .returned _ => true
  | _ => false

/-- Number of events satisfying `p` in a trace. -/
def countEv (p : ClientEvent → Bool) (t : List ClientEvent) : Nat :=
  (t.filter p).length

/-- Does a goroutine event occur strictly after `connClosed` in the
trace, i.e. was the socket closed while the background unit of work was
still running? -/
def closedWhileGoPending (t : List ClientEvent) : Bool :=
  ((t.dropWhile (fun e => !(isClosed e))).drop 1).any isGoEv

/-- Did both the resolve and the dial succeed, so that a socket exists? -/
def socketCreated (env : ClientEnv) : Bool :=
  (match env.resolveRes with | .ok _ => true | .error _ => false) &&
  (match env.dialRes with | .ok _ => true | .error _ => false)

/-! Shared counting lemmas. -/

theorem countEv_append (p : ClientEvent → Bool) (a b : List ClientEvent) :
    countEv p (a ++ b) = countEv p a + countEv p b := by
  simp [countEv, List.filter_append]

theorem countEv_map_goEv (p : ClientEvent → Bool) (q : GoEvent → Bool)
    (hpq : ∀ e, p (ClientEvent.goEv e) = q e) (l : List GoEvent) :
    countEv p (l.map ClientEvent.goEv) = (l.filter q).length := by
  induction l with
  | nil => rfl
  | cons x xs ih =>
      simp only [List.map_cons, countEv, List.filter_cons, hpq] at *
      cases hq : q x <;> simp [hq, ih]

theorem goroutine_send_once (env : ClientEnv) :
    ((goroutine env).1.filter isGoSend).length = 1 := by
  unfold goroutine
  cases hio : ioCopy env.payload env.writeRes with
  | error msg => rfl
  | ok n =>
      cases hsd : env.setDeadlineRes with
      | error msg => rfl
      | ok u =>
          cases hrd : env.readRes with
          | error msg => rfl
          | ok da => rfl

theorem countEv_map_goEv_zero (p : ClientEvent → Bool)
    (hp : ∀ e, p (ClientEvent.goEv e) = false) (l : List GoEvent) :
    countEv p (l.map ClientEvent.goEv) = 0 := by
  induction l with
  | nil => rfl
  | cons x xs ih =>
      simp only [List.map_cons, countEv, List.filter_cons, hp]
      simpa [countEv] using ih

/-- Shape of the goroutine on an all-successful environment. -/
theorem goroutine_ok (env : ClientEnv) (n : Nat) (data : List Nat)
    (sender : String)
    (h1 : ioCopy env.payload env.writeRes = .ok n)
    (h2 : env.setDeadlineRes = .ok ())
    (h3 : env.readRes = .ok (data, sender)) :
    goroutine env =
      ([.copyAttempt, .copyDone n, .deadlineSet (env.now + updTimeout),
        .readAttempt, .readDone (min data.length udpBufferSize) sender,
        .chanSend none], none) := by
  unfold goroutine
  rw [h1, h2, h3]
  rfl

/-- Shape of a `client` call whose resolve step fails. -/
theorem client_trace_resolveErr (m : Keba) (env : ClientEnv)
    (address msg : String) (h : env.resolveRes = .error msg) :
    m.client env address =
      ([.resolveAttempt address, .returned (some (.addrError msg))],
       some (.addrError msg)) := by
  unfold Keba.client
  rw [h]

/-- Shape of a `client` call whose dial step fails. -/
theorem client_trace_dialErr (m : Keba) (env : ClientEnv)
    (address raddr msg : String) (h1 : env.resolveRes = .ok raddr)
    (h2 : env.dialRes = .error msg) :
    m.client env address =
      ([.resolveAttempt address, .resolved raddr, .dialAttempt raddr,
        .returned (some (.opError "dial" msg))],
       some (.opError "dial" msg)) := by
  unfold Keba.client
  rw [h1, h2]

/-- Shape of a `client` call whose `select` takes the `ctx.Done()`
branch: the cancellation outcome is returned and the socket closed while
the goroutine events past `goProgress` are still to come. -/
theorem client_trace_ctx (m : Keba) (env : ClientEnv)
    (address raddr : String)
    (h1 : env.resolveRes = .ok raddr) (h2 : env.dialRes = .ok ())
    (h3 : env.ctxDoneFirst = true) :
    m.client env address =
      ([.resolveAttempt address, .resolved raddr, .dialAttempt raddr,
        .dialed, .goSpawned] ++
       ((goroutine env).1.take
          (min env.goProgress (goroutine env).1.length)).map .goEv ++
       [.ctxDoneObserved, .connClosed, .returned (some (ctxError env))] ++
       ((goroutine env).1.drop
          (min env.goProgress (goroutine env).1.length)).map .goEv,
       some (ctxError env)) := by
  unfold Keba.client
  rw [h1, h2]
  simp [h3]

/-- Shape of a `client` call whose `select` receives from `doneChan`:
the goroutine has run to completion, its value is received and returned,
and the socket is closed in between. -/
theorem client_trace_done (m : Keba) (env : ClientEnv)
    (address raddr : String)
    (h1 : env.resolveRes = .ok raddr) (h2 : env.dialRes = .ok ())
    (h3 : env.ctxDoneFirst = false) :
    m.client env address =
      ([.resolveAttempt address, .resolved raddr, .dialAttempt raddr,
        .dialed, .goSpawned] ++
       (goroutine env).1.map .goEv ++
       [.chanRecv (goroutine env).2, .connClosed,
        .returned (goroutine env).2],
       (goroutine env).2) := by
  unfold Keba.client
  rw [h1, h2]
  simp [h3]

/-- Every possible returned value of `client`, by provenance. -/
theorem client_result_cases (m : Keba) (env : ClientEnv) (address : String) :
    (m.client env address).2 = none ∨
    (∃ msg, (m.client env address).2 = some (.addrError msg)) ∨
    (∃ op msg, (m.client env address).2 = some (.opError op msg)) ∨
    (m.client env address).2 = some .ctxCanceled ∨
    (m.client env address).2 = some .ctxDeadlineExceeded := by
  unfold Keba.client
  cases hres : env.resolveRes with
  | error msg => exact Or.inr (Or.inl ⟨msg, rfl⟩)
  | ok raddr =>
      cases hd : env.dialRes with
      | error msg => exact Or.inr (Or.inr (Or.inl ⟨"dial", msg, rfl⟩))
      | ok u =>
          cases hc : env.ctxDoneFirst with
          | true =>
              unfold ctxError
              cases hk : env.ctxCanceledKind with
              | true => simp [hc, hk]
              | false => simp [hc, hk]
          | false =>
              unfold goroutine
              cases hio : ioCopy env.payload env.writeRes with
              | error msg => simp [hc]
              | ok n =>
                  cases hsd : env.setDeadlineRes with
                  | error msg => simp [hc]
                  | ok v =>
                      cases hrd : env.readRes with
                      | error msg => simp [hc]
                      | ok da => simp [hc]

/-- Claim C10 — `Status` always returns the constant pair
`(ChargeStatus("A"), not-implemented error)` and `Enabled` always
returns `(false, not-implemented error)`, for every `Keba` instance:
the non-error component is a fixed constant, independent of the
instance and of any network interaction. -/
theorem C10_confirmed (m : Keba) :
    m.Status = ("A", some notImplemented) ∧
    m.Enabled = (false, some notImplemented) :=
  ⟨rfl, rfl⟩

/-- Claim C9 — `Status`, `Enabled`, `Enable` and `MaxCurrent` all return
the hard `errors.New("not implemented")` error, and no error ever
returned by the exchange primitive `client` is an `errors.New` value at
all (transport errors are address-resolution errors, `*net.OpError`
wrappers, or the two `context` sentinels), so the not-implemented error
is distinct from every transport-level error. -/
theorem C9_confirmed (m : Keba) (env : ClientEnv) (address : String)
    (e : GoError) (h : (m.client env address).2 = some e) :
    (m.Status.2 = some notImplemented ∧
     m.Enabled.2 = some notImplemented ∧
     (∀ b : Bool, m.Enable b = some notImplemented) ∧
     (∀ c : Int, m.MaxCurrent c = some notImplemented)) ∧
    (∀ msg, e ≠ .errorString msg) ∧ e ≠ notImplemented := by
  have hcases := client_result_cases m env address
  rw [h] at hcases
  have hne : ∀ msg, e ≠ .errorString msg := by
    intro msg hmsg
    subst hmsg
    rcases hcases with h0 | ⟨m1, h1⟩ | ⟨op, m2, h2⟩ | h3 | h4 <;>
      simp_all
  exact ⟨⟨rfl, rfl, fun b => rfl, fun c => rfl⟩, hne,
    fun hni => hne "not implemented" hni⟩

/-- Witness for C9 at a concrete environment whose resolve step fails:
the call returns an address-resolution error, which is not an
`errors.New` value and differs from the not-implemented error. -/
theorem C9_witness :
    (((NewKeba "wb").client
        { resolveRes := .error "bad address", dialRes := .ok (),
          payload := [1], writeRes := .ok (), setDeadlineRes := .ok (),
          readRes := .ok ([2], "peer"), now := 0, ctxDoneFirst := false,
          ctxCanceledKind := true, goProgress := 0 } "host:7090").2 =
      some (.addrError "bad address")) ∧
    ((∀ b : Bool, (NewKeba "wb").Enable b = some notImplemented) ∧
     GoError.addrError "bad address" ≠ notImplemented) := by
  refine ⟨rfl, ?_⟩
  have h := C9_confirmed (NewKeba "wb")
    { resolveRes := .error "bad address", dialRes := .ok (),
      payload := [1], writeRes := .ok (), setDeadlineRes := .ok (),
      readRes := .ok ([2], "peer"), now := 0, ctxDoneFirst := false,
      ctxCanceledKind := true, goProgress := 0 } "host:7090"
    (.addrError "bad address") rfl
  exact ⟨h.1.2.2.1, h.2.2⟩

/-- Claim C6 — a resolution failure makes `client` return the resolution
error with nothing else attempted (the trace holds only the resolve
attempt and the return: no socket, no goroutine, no write, no close);
a dial failure after a successful resolve makes `client` return the dial
error with nothing further attempted. -/
theorem C6_confirmed (m : Keba) (env : ClientEnv) (address : String) :
    (∀ msg, env.resolveRes = .error msg →
      m.client env address =
        ([.resolveAttempt address, .returned (some (.addrError msg))],
         some (.addrError msg))) ∧
    (∀ raddr msg, env.resolveRes = .ok raddr → env.dialRes = .error msg →
      m.client env address =
        ([.resolveAttempt address, .resolved raddr, .dialAttempt raddr,
          .returned (some (.opError "dial" msg))],
         some (.opError "dial" msg))) := by
  exact ⟨fun msg hres => client_trace_resolveErr m env address msg hres,
    fun raddr msg hres hd =>
      client_trace_dialErr m env address raddr msg hres hd⟩

/-- Witness for C6: a concrete unresolvable address environment, and a
concrete dial-failure environment. -/
theorem C6_witness :
    ((NewKeba "wb").client
        { resolveRes := .error "no such host", dialRes := .ok (),
          payload := [], writeRes := .ok (), setDeadlineRes := .ok (),
          readRes := .ok ([], "p"), now := 5, ctxDoneFirst := false,
          ctxCanceledKind := true, goProgress := 0 } ":bad" =
      ([.resolveAttempt ":bad", .returned (some (.addrError "no such host"))],
       some (.addrError "no such host"))) ∧
    ((NewKeba "wb").client
        { resolveRes := .ok "1.2.3.4:7090", dialRes := .error "no route",
          payload := [], writeRes := .ok (), setDeadlineRes := .ok (),
          readRes := .ok ([], "p"), now := 5, ctxDoneFirst := false,
          ctxCanceledKind := true, goProgress := 0 } "kb:7090" =
      ([.resolveAttempt "kb:7090", .resolved "1.2.3.4:7090",
        .dialAttempt "1.2.3.4:7090",
        .returned (some (.opError "dial" "no route"))],
       some (.opError "dial" "no route"))) := by
  constructor
  · exact (C6_confirmed (NewKeba "wb")
      { resolveRes := .error "no such host", dialRes := .ok (),
        payload := [], writeRes := .ok (), setDeadlineRes := .ok (),
        readRes := .ok ([], "p"), now := 5, ctxDoneFirst := false,
        ctxCanceledKind := true, goProgress := 0 } ":bad").1
      "no such host" rfl
  · exact (C6_confirmed (NewKeba "wb")
      { resolveRes := .ok "1.2.3.4:7090", dialRes := .error "no route",
        payload := [], writeRes := .ok (), setDeadlineRes := .ok (),
        readRes := .ok ([], "p"), now := 5, ctxDoneFirst := false,
        ctxCanceledKind := true, goProgress := 0 } "kb:7090").2
      "1.2.3.4:7090" "no route" rfl rfl

/-- Claim C5 — in every run of the background unit of work, the full
payload write is attempted before the read deadline is armed (the trace
begins with the copy, then the deadline), the receive never starts
unless the write completed successfully, and on a write failure the
write error is sent on the completion channel with no deadline armed and
no receive attempted. -/
theorem C5_confirmed (env : ClientEnv) :
    (∀ msg, ioCopy env.payload env.writeRes = .error msg →
      goroutine env =
        ([.copyAttempt, .chanSend (some (.opError "write" msg))],
         some (.opError "write" msg))) ∧
    (∀ n, ioCopy env.payload env.writeRes = .ok n →
      ∃ rest, (goroutine env).1 =
        .copyAttempt :: .copyDone n ::
          .deadlineSet (env.now + updTimeout) :: rest) ∧
    (GoEvent.readAttempt ∈ (goroutine env).1 →
      ∃ n, ioCopy env.payload env.writeRes = .ok n) := by
  refine ⟨?_, ?_, ?_⟩
  · intro msg hio
    unfold goroutine
    rw [hio]
  · intro n hio
    unfold goroutine
    rw [hio]
    cases hsd : env.setDeadlineRes with
    | error msg => exact ⟨_, rfl⟩
    | ok u =>
        cases hrd : env.readRes with
        | error msg => exact ⟨_, rfl⟩
        | ok da =>
            obtain ⟨data, addr⟩ := da
            exact ⟨_, rfl⟩
  · intro hmem
    unfold goroutine at hmem
    cases hio : ioCopy env.payload env.writeRes with
    | error msg =>
        rw [hio] at hmem
        simp at hmem
    | ok n => exact ⟨n, rfl⟩

/-- Witness for C5: on a concrete environment whose write fails, the
background unit sends exactly the write error after only the copy
attempt; on a concrete environment whose write succeeds, the trace
opens with copy, copy completion, then the armed deadline. -/
theorem C5_witness :
    (goroutine
        { resolveRes := .ok "r", dialRes := .ok (), payload := [9],
          writeRes := .error "buffer full", setDeadlineRes := .ok (),
          readRes := .ok ([1], "p"), now := 100, ctxDoneFirst := false,
          ctxCanceledKind := true, goProgress := 0 } =
      ([.copyAttempt, .chanSend (some (.opError "write" "buffer full"))],
       some (.opError "write" "buffer full"))) ∧
    (∃ rest,
      (goroutine
          { resolveRes := .ok "r", dialRes := .ok (), payload := [9, 9],
            writeRes := .ok (), setDeadlineRes := .ok (),
            readRes := .ok ([1], "p"), now := 100, ctxDoneFirst := false,
            ctxCanceledKind := true, goProgress := 0 }).1 =
        .copyAttempt :: .copyDone 2 ::
          .deadlineSet (100 + updTimeout) :: rest) := by
  constructor
  · exact (C5_confirmed
      { resolveRes := .ok "r", dialRes := .ok (), payload := [9],
        writeRes := .error "buffer full", setDeadlineRes := .ok (),
        readRes := .ok ([1], "p"), now := 100, ctxDoneFirst := false,
        ctxCanceledKind := true, goProgress := 0 }).1 "buffer full" rfl
  · exact (C5_confirmed
      { resolveRes := .ok "r", dialRes := .ok (), payload := [9, 9],
        writeRes := .ok (), setDeadlineRes := .ok (),
        readRes := .ok ([1], "p"), now := 100, ctxDoneFirst := false,
        ctxCanceledKind := true, goProgress := 0 }).2.1 2 rfl

/-- Claim C7 — the reply buffer capacity is the fixed constant 1024
bytes, a reply datagram is truncated to `min length 1024` bytes with no
error signalled (the goroutine sends `nil`), and the deadline armed
after a successful write is exactly `now + updTimeout` with
`updTimeout` fixed at one second (10^9 nanoseconds). -/
theorem C7_confirmed (env : ClientEnv) (n : Nat) (data : List Nat)
    (sender : String)
    (h1 : ioCopy env.payload env.writeRes = .ok n)
    (h2 : env.setDeadlineRes = .ok ())
    (h3 : env.readRes = .ok (data, sender)) :
    udpBufferSize = 1024 ∧ updTimeout = 1000000000 ∧
    goroutine env =
      ([.copyAttempt, .copyDone n, .deadlineSet (env.now + updTimeout),
        .readAttempt, .readDone (min data.length udpBufferSize) sender,
        .chanSend none], none) :=
  ⟨rfl, rfl, goroutine_ok env n data sender h1 h2 h3⟩

/-- Witness for C7: a concrete 1500-byte reply is truncated to 1024
bytes and reported without error. -/
theorem C7_witness :
    (udpBufferSize = 1024 ∧ updTimeout = 1000000000 ∧
      goroutine
          { resolveRes := .ok "r", dialRes := .ok (), payload := [1, 2, 3],
            writeRes := .ok (), setDeadlineRes := .ok (),
            readRes := .ok (List.replicate 1500 7, "peer:7090"), now := 4,
            ctxDoneFirst := false, ctxCanceledKind := true,
            goProgress := 0 } =
        ([.copyAttempt, .copyDone 3, .deadlineSet (4 + updTimeout),
          .readAttempt,
          .readDone (min (List.replicate 1500 7).length udpBufferSize)
            "peer:7090",
          .chanSend none], none)) ∧
    min (List.replicate 1500 7).length udpBufferSize = 1024 := by
  constructor
  · exact C7_confirmed
      { resolveRes := .ok "r", dialRes := .ok (), payload := [1, 2, 3],
        writeRes := .ok (), setDeadlineRes := .ok (),
        readRes := .ok (List.replicate 1500 7, "peer:7090"), now := 4,
        ctxDoneFirst := false, ctxCanceledKind := true, goProgress := 0 }
      3 (List.replicate 1500 7) "peer:7090" rfl rfl rfl
  · rw [List.length_replicate]
    decide

/-- Claim C8 — an empty payload source never makes the write fail
(`io.Copy` of an empty source returns 0 bytes and no error), and the
background unit still proceeds to the read phase: the deadline is armed
and the receive is attempted. -/
theorem C8_confirmed (env : ClientEnv) (h0 : env.payload = [])
    (h1 : env.setDeadlineRes = .ok ()) :
    ioCopy env.payload env.writeRes = .ok 0 ∧
    GoEvent.deadlineSet (env.now + updTimeout) ∈ (goroutine env).1 ∧
    GoEvent.readAttempt ∈ (goroutine env).1 := by
  have hio : ioCopy env.payload env.writeRes = .ok 0 := by
    rw [h0]
    rfl
  refine ⟨hio, ?_, ?_⟩ <;>
  · unfold goroutine
    rw [hio, h1]
    cases hrd : env.readRes with
    | error msg => simp
    | ok da =>
        obtain ⟨data, addr⟩ := da
        simp

/-- Witness for C8 at a concrete empty-payload environment. -/
theorem C8_witness :
    ioCopy ([] : List Nat) (.ok ()) = .ok 0 ∧
    GoEvent.deadlineSet (77 + updTimeout) ∈
      (goroutine
        { resolveRes := .ok "r", dialRes := .ok (), payload := [],
          writeRes := .ok (), setDeadlineRes := .ok (),
          readRes := .ok ([1, 2], "p"), now := 77, ctxDoneFirst := false,
          ctxCanceledKind := true, goProgress := 0 }).1 ∧
    GoEvent.readAttempt ∈
      (goroutine
        { resolveRes := .ok "r", dialRes := .ok (), payload := [],
          writeRes := .ok (), setDeadlineRes := .ok (),
          readRes := .ok ([1, 2], "p"), now := 77, ctxDoneFirst := false,
          ctxCanceledKind := true, goProgress := 0 }).1 :=
  C8_confirmed
    { resolveRes := .ok "r", dialRes := .ok (), payload := [],
      writeRes := .ok (), setDeadlineRes := .ok (),
      readRes := .ok ([1, 2], "p"), now := 77, ctxDoneFirst := false,
      ctxCanceledKind := true, goProgress := 0 } rfl rfl

/-- Claim C3 — when the cancellation signal resolves before the
completion channel delivers a value, the call returns exactly
`ctx.Err()` (the cancellation error, not a deadline or read outcome),
and the value the background unit later sends is discarded: the trace
contains no receive from `doneChan` at all. -/
theorem C3_confirmed (m : Keba) (env : ClientEnv) (address raddr : String)
    (h1 : env.resolveRes = .ok raddr) (h2 : env.dialRes = .ok ())
    (h3 : env.ctxDoneFirst = true) :
    (m.client env address).2 = some (ctxError env) ∧
    countEv isRecv (m.client env address).1 = 0 := by
  rw [client_trace_ctx m env address raddr h1 h2 h3]
  refine ⟨rfl, ?_⟩
  simp only [countEv_append, countEv_map_goEv_zero isRecv (fun e => rfl)]
  rfl

/-- Witness for C3 at a concrete cancelled environment. -/
theorem C3_witness :
    ((NewKeba "wb").client
        { resolveRes := .ok "r", dialRes := .ok (), payload := [1],
          writeRes := .ok (), setDeadlineRes := .ok (),
          readRes := .ok ([2], "p"), now := 3, ctxDoneFirst := true,
          ctxCanceledKind := true, goProgress := 2 } "host:7090").2 =
      some (ctxError
        { resolveRes := .ok "r", dialRes := .ok (), payload := [1],
          writeRes := .ok (), setDeadlineRes := .ok (),
          readRes := .ok ([2], "p"), now := 3, ctxDoneFirst := true,
          ctxCanceledKind := true, goProgress := 2 }) ∧
    countEv isRecv
      ((NewKeba "wb").client
        { resolveRes := .ok "r", dialRes := .ok (), payload := [1],
          writeRes := .ok (), setDeadlineRes := .ok (),
          readRes := .ok ([2], "p"), now := 3, ctxDoneFirst := true,
          ctxCanceledKind := true, goProgress := 2 } "host:7090").1 = 0 :=
  C3_confirmed (NewKeba "wb")
    { resolveRes := .ok "r", dialRes := .ok (), payload := [1],
      writeRes := .ok (), setDeadlineRes := .ok (),
      readRes := .ok ([2], "p"), now := 3, ctxDoneFirst := true,
      ctxCanceledKind := true, goProgress := 2 } "host:7090" "r"
    rfl rfl rfl

/-- Claim C1 is false on the code: `client` returns only a Go `error`.
Two fully successful calls whose replies differ in both byte count and
sender address return the very same value, `nil`, so the call result
carries neither the received byte count nor the sender address; the
counts and addresses are visible only in the trace (TRACE log). -/
theorem C1_counterexample :
    (((NewKeba "wb").client
        { resolveRes := .ok "r", dialRes := .ok (),
          payload := [1, 2, 3, 4], writeRes := .ok (),
          setDeadlineRes := .ok (),
          readRes := .ok ([5, 6, 7, 8], "10.0.0.1:7090"), now := 0,
          ctxDoneFirst := false, ctxCanceledKind := true,
          goProgress := 0 } "host:7090").2 = none) ∧
    (((NewKeba "wb").client
        { resolveRes := .ok "r", dialRes := .ok (),
          payload := [1, 2, 3, 4], writeRes := .ok (),
          setDeadlineRes := .ok (),
          readRes := .ok ([5, 6], "10.0.0.2:9999"), now := 0,
          ctxDoneFirst := false, ctxCanceledKind := true,
          goProgress := 0 } "host:7090").2 = none) ∧
    ClientEvent.goEv (.readDone 4 "10.0.0.1:7090") ∈
      ((NewKeba "wb").client
        { resolveRes := .ok "r", dialRes := .ok (),
          payload := [1, 2, 3, 4], writeRes := .ok (),
          setDeadlineRes := .ok (),
          readRes := .ok ([5, 6, 7, 8], "10.0.0.1:7090"), now := 0,
          ctxDoneFirst := false, ctxCanceledKind := true,
          goProgress := 0 } "host:7090").1 ∧
    ClientEvent.goEv (.readDone 2 "10.0.0.2:9999") ∈
      ((NewKeba "wb").client
        { resolveRes := .ok "r", dialRes := .ok (),
          payload := [1, 2, 3, 4], writeRes := .ok (),
          setDeadlineRes := .ok (),
          readRes := .ok ([5, 6], "10.0.0.2:9999"), now := 0,
          ctxDoneFirst := false, ctxCanceledKind := true,
          goProgress := 0 } "host:7090").1 := by
  refine ⟨rfl, rfl, ?_, ?_⟩ <;> decide

/-- Claim C1 amended — a call that completes with the success outcome
returns a nil error (and nothing more); the received byte count and the
sender address are only observed in the trace, as the logged `readDone`
event. -/
theorem C1_amended (m : Keba) (env : ClientEnv) (address raddr : String)
    (n : Nat) (data : List Nat) (sender : String)
    (h1 : env.resolveRes = .ok raddr) (h2 : env.dialRes = .ok ())
    (h3 : env.ctxDoneFirst = false)
    (h4 : ioCopy env.payload env.writeRes = .ok n)
    (h5 : env.setDeadlineRes = .ok ())
    (h6 : env.readRes = .ok (data, sender)) :
    (m.client env address).2 = none ∧
    ClientEvent.goEv
        (.readDone (min data.length udpBufferSize) sender) ∈
      (m.client env address).1 := by
  rw [client_trace_done m env address raddr h1 h2 h3,
      goroutine_ok env n data sender h4 h5 h6]
  refine ⟨rfl, ?_⟩
  simp

/-- Witness for the amended C1 at a concrete successful environment. -/
theorem C1_witness :
    ((NewKeba "wb").client
        { resolveRes := .ok "r", dialRes := .ok (), payload := [1, 2],
          writeRes := .ok (), setDeadlineRes := .ok (),
          readRes := .ok ([9, 9, 9], "peer:7090"), now := 6,
          ctxDoneFirst := false, ctxCanceledKind := true,
          goProgress := 0 } "host:7090").2 = none ∧
    ClientEvent.goEv
        (.readDone (min ([9, 9, 9] : List Nat).length udpBufferSize)
          "peer:7090") ∈
      ((NewKeba "wb").client
        { resolveRes := .ok "r", dialRes := .ok (), payload := [1, 2],
          writeRes := .ok (), setDeadlineRes := .ok (),
          readRes := .ok ([9, 9, 9], "peer:7090"), now := 6,
          ctxDoneFirst := false, ctxCanceledKind := true,
          goProgress := 0 } "host:7090").1 :=
  C1_amended (NewKeba "wb")
    { resolveRes := .ok "r", dialRes := .ok (), payload := [1, 2],
      writeRes := .ok (), setDeadlineRes := .ok (),
      readRes := .ok ([9, 9, 9], "peer:7090"), now := 6,
      ctxDoneFirst := false, ctxCanceledKind := true,
      goProgress := 0 } "host:7090" "r" 2 [9, 9, 9] "peer:7090"
    rfl rfl rfl rfl rfl rfl

/-- Claim C2 is false on the code: `defer conn.Close()` runs as soon as
`client` returns.  In this concrete cancelled execution the supervising
call returns (and closes the socket) while every step of the background
unit of work is still to come: a goroutine event occurs strictly after
`connClosed` in the trace. -/
theorem C2_counterexample :
    closedWhileGoPending
      (((NewKeba "wb").client
          { resolveRes := .ok "r", dialRes := .ok (), payload := [3],
            writeRes := .ok (), setDeadlineRes := .ok (),
            readRes := .ok ([4], "peer:1"), now := 8,
            ctxDoneFirst := true, ctxCanceledKind := true,
            goProgress := 0 } "host:7090").1) = true := by
  decide

/-- Claim C2 amended — the socket is closed exactly once on every exit
path on which it was created, and never on the resolve/dial failure
paths where no socket exists; but the release happens when the call
returns, so on a cancellation outcome it may occur while the background
unit of work is still using the socket (no waiting for the background
unit). -/
theorem C2_amended (m : Keba) (env : ClientEnv) (address : String) :
    countEv isClosed (m.client env address).1 =
      (if socketCreated env then 1 else 0) := by
  cases hres : env.resolveRes with
  | error msg =>
      rw [client_trace_resolveErr m env address msg hres]
      simp [socketCreated, hres, countEv, List.filter_cons,
        List.filter_nil, isClosed]
  | ok raddr =>
      cases hd : env.dialRes with
      | error msg =>
          rw [client_trace_dialErr m env address raddr msg hres hd]
          simp [socketCreated, hres, hd, countEv, List.filter_cons,
            List.filter_nil, isClosed]
      | ok u =>
          obtain ⟨⟩ := u
          have hsock : socketCreated env = true := by
            simp [socketCreated, hres, hd]
          cases hc : env.ctxDoneFirst with
          | true =>
              rw [client_trace_ctx m env address raddr hres hd hc]
              simp only [countEv_append,
                countEv_map_goEv_zero isClosed (fun e => rfl), hsock]
              rfl
          | false =>
              rw [client_trace_done m env address raddr hres hd hc]
              simp only [countEv_append,
                countEv_map_goEv_zero isClosed (fun e => rfl), hsock]
              rfl

/-- Claim C4 is false on the code in its "read exactly once" part: in
this concrete cancelled execution an outcome is returned (exactly one
`returned` event) yet the completion channel is never read — its
buffered value is simply abandoned. -/
theorem C4_counterexample :
    countEv isReturned
        (((NewKeba "wb").client
            { resolveRes := .ok "r", dialRes := .ok (), payload := [7],
              writeRes := .ok (), setDeadlineRes := .ok (),
              readRes := .ok ([8, 8], "peer:2"), now := 1,
              ctxDoneFirst := true, ctxCanceledKind := false,
              goProgress := 1 } "host:7090").1) = 1 ∧
    countEv isRecv
        (((NewKeba "wb").client
            { resolveRes := .ok "r", dialRes := .ok (), payload := [7],
              writeRes := .ok (), setDeadlineRes := .ok (),
              readRes := .ok ([8, 8], "peer:2"), now := 1,
              ctxDoneFirst := true, ctxCanceledKind := false,
              goProgress := 1 } "host:7090").1) = 0 := by
  refine ⟨?_, ?_⟩ <;> decide

/-- Claim C4 amended — every call returns exactly one outcome (exactly
one `returned` event), the completion channel is written exactly once
whenever the background unit is spawned (and never otherwise), and it is
read exactly once when the completion branch wins but zero times when
the cancellation branch wins: read at most once, not exactly once. -/
theorem C4_amended (m : Keba) (env : ClientEnv) (address : String) :
    countEv isReturned (m.client env address).1 = 1 ∧
    countEv isSend (m.client env address).1 =
      (if socketCreated env then 1 else 0) ∧
    countEv isRecv (m.client env address).1 =
      (if socketCreated env && !env.ctxDoneFirst then 1 else 0) := by
  have hSendGo : ∀ e, isSend (ClientEvent.goEv e) = isGoSend e := by
    intro e
    cases e <;> rfl
  have hsend : ∀ l : List GoEvent,
      countEv isSend (l.map ClientEvent.goEv) =
        (l.filter isGoSend).length :=
    countEv_map_goEv isSend isGoSend hSendGo
  cases hres : env.resolveRes with
  | error msg =>
      rw [client_trace_resolveErr m env address msg hres]
      refine ⟨rfl, ?_, ?_⟩ <;>
        simp [socketCreated, hres, countEv, List.filter_cons,
          List.filter_nil, isSend, isRecv]
  | ok raddr =>
      cases hd : env.dialRes with
      | error msg =>
          rw [client_trace_dialErr m env address raddr msg hres hd]
          refine ⟨rfl, ?_, ?_⟩ <;>
            simp [socketCreated, hres, hd, countEv, List.filter_cons,
              List.filter_nil, isSend, isRecv]
      | ok u =>
          obtain ⟨⟩ := u
          have hsock : socketCreated env = true := by
            simp [socketCreated, hres, hd]
          cases hc : env.ctxDoneFirst with
          | true =>
              rw [client_trace_ctx m env address raddr hres hd hc]
              refine ⟨?_, ?_, ?_⟩
              · simp only [countEv_append,
                  countEv_map_goEv_zero isReturned (fun e => rfl)]
                rfl
              · have hsum :
                    (((goroutine env).1.take
                        (min env.goProgress
                          (goroutine env).1.length)).filter
                      isGoSend).length +
                    (((goroutine env).1.drop
                        (min env.goProgress
                          (goroutine env).1.length)).filter
                      isGoSend).length = 1 := by
                  rw [← List.length_append, ← List.filter_append,
                    List.take_append_drop]
                  exact goroutine_send_once env
                simp only [countEv_append, hsend, hsock]
                have hpre : countEv isSend
                    [ClientEvent.resolveAttempt address,
                     .resolved raddr, .dialAttempt raddr, .dialed,
                     .goSpawned] = 0 := rfl
                have hmid : countEv isSend
                    [ClientEvent.ctxDoneObserved, .connClosed,
                     .returned (some (ctxError env))] = 0 := rfl
                rw [hpre, hmid]
                simpa using hsum
              · simp only [countEv_append,
                  countEv_map_goEv_zero isRecv (fun e => rfl), hsock, hc]
                rfl
          | false =>
              rw [client_trace_done m env address raddr hres hd hc]
              refine ⟨?_, ?_, ?_⟩
              · simp only [countEv_append,
                  countEv_map_goEv_zero isReturned (fun e => rfl)]
                rfl
              · simp only [countEv_append, hsend, hsock]
                have hpre : countEv isSend
                    [ClientEvent.resolveAttempt address,
                     .resolved raddr, .dialAttempt raddr, .dialed,
                     .goSpawned] = 0 := rfl
                have hmid : countEv isSend
                    [ClientEvent.chanRecv (goroutine env).2, .connClosed,
                     .returned (goroutine env).2] = 0 := rfl
                rw [hpre, hmid]
                simpa using goroutine_send_once env
              · simp only [countEv_append,
                  countEv_map_goEv_zero isRecv (fun e => rfl), hsock, hc]
                rfl

end Evcc
